import Mathlib

/-!
Verification of the API-access and data-shaping core of the anime dashboard
(`app.py`).  The Python code is shallowly embedded: JSON values become an
inductive `Json` (Python distinguishes `int` and `float`, so both appear),
dictionaries become association lists, fallible code returns `Except`, and
the HTTP transport is an oracle `ℕ → FetchResult` giving the outcome of the
n-th outbound fetch (status code and parsed body, or the message of the
`requests.exceptions.RequestException` that was raised — with requests ≥ 2.27
a malformed body raises `JSONDecodeError`, a `RequestException`, so JSON
parse failures are transport failures here).
-/

namespace AnimeDash

/-- A Python/JSON value.  `int` and `float` are kept apart because the code
inspects `isinstance(…, int)`. -/
inductive Json where
  | null
  | bool (b : Bool)
  | int (n : ℤ)
  | float (q : ℚ)
  | str (s : String)
  | arr (elems : List Json)
  | obj (fields : List (String × Json))

/-- A parameter dictionary: string keys to JSON scalar values. -/
abbrev Params := List (String × Json)

/-- Python `d[k]` / `k in d` lookup on a dict given as an association list
(first binding wins, as in a dict built left to right without duplicates). -/
def dictGet? (fields : List (String × Json)) (k : String) : Option Json :=
  (fields.find? (fun p => p.1 = k)).map (fun p => p.2)

/-- Python `d.get(k, dflt)`: the default applies only when the key is
entirely absent; a key bound to `None` yields `None`, not the default. -/
def dictGetD (fields : List (String × Json)) (k : String) (dflt : Json) : Json :=
  (dictGet? fields k).getD dflt

/-- Python `k in d`. -/
def hasKey (fields : List (String × Json)) (k : String) : Bool :=
  (dictGet? fields k).isSome

/-- Python truthiness of a JSON value (`bool(v)`). -/
def truthy : Json → Bool
  | .null => false
  | .bool b => b
  | .int n => decide (n ≠ 0)
  | .float q => decide (q ≠ 0)
  | .str s => decide (s ≠ "")
  | .arr [] => false
  | .arr (_ :: _) => true
  | .obj [] => false
  | .obj (_ :: _) => true

/-- The condition of line 60 of `app.py`:
`'error' in json_data and not json_data.get('data')`. -/
def isApiError (fields : List (String × Json)) : Bool :=
  hasKey fields "error" && !truthy (dictGetD fields "data" .null)

/-- Outcome of one call of `requests.get` followed by `response.json()`:
either the HTTP status code with the parsed body, or the message of the
raised `RequestException`. -/
abbrev FetchResult := Except String (ℕ × Json)

/-- Result of `rate_limited_request`: the returned body, the wrapped
`Exception` raised on a transport failure, or the uncaught `AttributeError`
raised by `json_data.keys()` (line 57) when the body is valid JSON but not
an object. -/
inductive ReqOutcome where
  | body (j : Json)
  | transportError (msg : String)
  | attrError

/-- Shallow embedding of `rate_limited_request` (app.py lines 33–75).
`transport n` is the outcome of the n-th fetch; `idx` is the index of the
next fetch to perform.  Returns the outcome together with the trace of
parameter dictionaries, one entry per fetch actually attempted.  The
recursion of line 66 (retry with parameters narrowed to the query key) is
embedded as written; it terminates because the narrowed dictionary has a
single key while the branch requires more than one. -/
def rate_limited_request (transport : ℕ → FetchResult) (idx : ℕ)
    (params : Params) : ReqOutcome × List Params :=
  match transport idx with
  | .error cause => (.transportError ("Failed to fetch data: " ++ cause), [params])
  | .ok (_status, jsonData) =>
    match jsonData with
    | .obj fields =>
      if isApiError fields then
        match dictGet? params "q" with
        | some qv =>
          if h : 1 < params.length then
            let inner := rate_limited_request transport (idx + 1) [("q", qv)]
            (inner.1, params :: inner.2)
          else (.body (.obj fields), [params])
        | none => (.body (.obj fields), [params])
      else (.body (.obj fields), [params])
    | _ => (.attrError, [params])
termination_by params.length
decreasing_by simpa using h

/-- Errors a shaping expression can raise: `KeyError` from `anime['title']`
(the `MalformedRecordError` of the spec), `AttributeError` from calling
`.get` on a non-dict, `TypeError` from subscripting a non-dict. -/
inductive ShapeErr where
  | keyError
  | attributeError
  | typeError
deriving DecidableEq

/-- Python `v.get(k, dflt)` where `v` is an arbitrary value: raises
`AttributeError` unless `v` is a dict. -/
def pyGetAttr (v : Json) (k : String) (dflt : Json) : Except ShapeErr Json :=
  match v with
  | .obj fields => .ok (dictGetD fields k dflt)
  | _ => .error .attributeError

/-- The nested image-URL extraction
`anime.get('images', {}).get('jpg', {}).get(key, '')` (app.py lines 221,
376, 551). -/
def imageUrlChain (record : List (String × Json)) (key : String) :
    Except ShapeErr Json := do
  let images := dictGetD record "images" (.obj [])
  let jpg ← pyGetAttr images "jpg" (.obj [])
  pyGetAttr jpg key (.str "")

/-- A shaped row of the Search Anime view (app.py lines 219–227). -/
structure SearchRow where
  title : Json
  image : Json
  description : Json
  score : Json
  type : Json
  episodes : Json
  members : Json

/-- Row shaping of the Search Anime view (app.py lines 219–227).  The dict
literal evaluates its values in order, so `anime['title']` is the first
expression that can raise, then the image chain. -/
def shapeSearch (record : List (String × Json)) : Except ShapeErr SearchRow := do
  let title ← (match dictGet? record "title" with
    | some t => Except.ok t
    | none => Except.error ShapeErr.keyError)
  let image ← imageUrlChain record "image_url"
  Except.ok
    { title := title
      image := image
      description := dictGetD record "synopsis" (.str "No description available")
      score := dictGetD record "score" (.int 0)
      type := dictGetD record "type" (.str "Unknown")
      episodes := dictGetD record "episodes" (.int 0)
      members := dictGetD record "members" (.int 0) }

/-- A shaped row of the Top Anime view (app.py lines 367–377). -/
structure TopRow where
  title : Json
  score : Json
  members : Json
  rank : Json
  type : Json
  episodes : Json
  status : Json
  year : Json
  image_url : Json

/-- Row shaping of the Top Anime view (app.py lines 367–377); the image
chain is the last value of the dict literal. -/
def shapeTop (record : List (String × Json)) : Except ShapeErr TopRow := do
  let title ← (match dictGet? record "title" with
    | some t => Except.ok t
    | none => Except.error ShapeErr.keyError)
  let image_url ← imageUrlChain record "image_url"
  Except.ok
    { title := title
      score := dictGetD record "score" (.int 0)
      members := dictGetD record "members" (.int 0)
      rank := dictGetD record "rank" (.int 0)
      type := dictGetD record "type" (.str "Unknown")
      episodes := dictGetD record "episodes" (.str "N/A")
      status := dictGetD record "status" (.str "Unknown")
      year := dictGetD record "year" (.str "Unknown")
      image_url := image_url }

/-- The numeric value of a JSON value, when it is a Python number. -/
def toRat? : Json → Option ℚ
  | .int n => some (n : ℚ)
  | .float q => some q
  | _ => none

/-- The pandas comparison `score >= min_score` on one cell: true exactly for
a numeric score at least the threshold (a missing/NaN score compares
false, as NaN does in pandas). -/
def scoreKeeps (v : Json) (m : ℚ) : Bool :=
  match toRat? v with
  | some q => decide (m ≤ q)
  | none => false

/-- `df = df[df['score'] >= min_score]` of the Search Anime view
(app.py line 230): a new filtered frame, the input is not mutated. -/
def filterByScore (rows : List SearchRow) (m : ℚ) : List SearchRow :=
  rows.filter (fun r => scoreKeeps r.score m)

/-- `df = df[df['score'] >= min_score]` of the Top Anime view
(app.py line 380). -/
def filterByScoreTop (rows : List TopRow) (m : ℚ) : List TopRow :=
  rows.filter (fun r => scoreKeeps r.score m)

/-- The numeric entries of the score column, in order. -/
def numericScores (rows : List SearchRow) : List ℚ :=
  rows.filterMap (fun r => toRat? r.score)

/-- `df['score'].mean()` (app.py line 288): pandas averages the numeric
(non-NaN) entries of the column. -/
def meanScore (rows : List SearchRow) : ℚ :=
  (numericScores rows).sum / ((numericScores rows).length : ℚ)

/-- The Search Anime view after filtering (app.py lines 230–293): if the
filtered frame is empty a warning is shown and no statistics are computed
(`if df.empty`, line 233); otherwise the mean score insight is produced. -/
def searchInsights (rows : List SearchRow) (m : ℚ) : Option ℚ :=
  let flt := filterByScore rows m
  if flt.isEmpty then none else some (meanScore flt)

/-- Python `isinstance(v, int)` on a JSON value: true for JSON integers
and also for JSON booleans, because Python `bool` subclasses `int`. -/
def isPyInt : Json → Bool
  | .int _ => true
  | .bool _ => true
  | _ => false

/-- The integer a Python-int value stands for in arithmetic: `True` is 1
and `False` is 0. -/
def pyIntVal : Json → ℤ
  | .int n => n
  | .bool true => 1
  | _ => 0

/-- The time-investment estimate of the Compare Anime view (app.py lines
744–753): `a1.get('episodes')` yields `None` when the key is absent, the
guard is `isinstance(…, int)` on both sides (satisfied by ints and — since
`bool` subclasses `int` — booleans), and the estimate is
`episodes * 23` minutes per side; otherwise the whole block is omitted. -/
def timeInvestment (a1 a2 : List (String × Json)) : Option (ℤ × ℤ) :=
  let e1 := (dictGet? a1 "episodes").getD Json.null
  let e2 := (dictGet? a2 "episodes").getD Json.null
  if isPyInt e1 && isPyInt e2 then
    some (pyIntVal e1 * 23, pyIntVal e2 * 23)
  else none

/-- Python `str(v)` for the scalar values `mal_id` can hold (the claims
never inspect this string; composite values are rendered loosely). -/
def pyStr : Json → String
  | .null => "None"
  | .bool true => "True"
  | .bool false => "False"
  | .int n => toString n
  | .float q => toString q
  | .str s => s
  | .arr _ => "[...]"
  | .obj _ => "{...}"

/-- One suggestion tuple of `get_anime_suggestions` (app.py lines 547–553):
`(title, english, japanese, small image URL, str(mal_id))`.  The tuple
evaluates `anime['title']` first, which raises `KeyError` when absent. -/
structure Suggestion where
  title : Json
  title_english : Json
  title_japanese : Json
  image : Json
  mal_id : String

/-- Build one suggestion tuple from one element of the `data` array. -/
def suggestionOf (anime : Json) : Except ShapeErr Suggestion :=
  match anime with
  | .obj fields =>
    match dictGet? fields "title" with
    | none => .error .keyError
    | some t => do
      let img ← imageUrlChain fields "small_image_url"
      Except.ok
        { title := t
          title_english := dictGetD fields "title_english" (.str "")
          title_japanese := dictGetD fields "title_japanese" (.str "")
          image := img
          mal_id := pyStr (dictGetD fields "mal_id" (.str "")) }
  | _ => .error .typeError

/-- The parameter dict `{'q': search_term, 'sfw': 'true', 'limit': 5}` of
`get_anime_suggestions` (app.py line 544). -/
def suggestParams (term : String) : Params :=
  [("q", .str term), ("sfw", .str "true"), ("limit", .int 5)]

/-- Shallow embedding of `get_anime_suggestions` (app.py lines 539–557).
An empty search term returns `[]` before the `try` block; every exception
inside the `try` — the wrapped transport `Exception`, the `AttributeError`
out of `rate_limited_request`, or any error while building the tuples — is
caught by `except Exception` and turned into `[]`, so the function never
raises and always returns a list. -/
def get_anime_suggestions (transport : ℕ → FetchResult) (idx : ℕ)
    (searchTerm : String) : List Suggestion :=
  if searchTerm = "" then []
  else
    match (rate_limited_request transport idx (suggestParams searchTerm)).1 with
    | .transportError _ => []
    | .attrError => []
    | .body results =>
      match results with
      | .obj fields =>
        if truthy (dictGetD fields "data" .null) then
          match dictGetD fields "data" .null with
          | .arr animes =>
            match animes.mapM suggestionOf with
            | .ok l => l
            | .error _ => []
          | _ => []
        else []
      | _ => []

/-- Timed model of `rate_limited_request` for the rate-limiter claim.  Time
is a rational clock advanced only by `time.sleep(1)` (exactly one unit,
line 52) and by `dur n ≥ 0`, the abstract duration of the n-th fetch and
its response handling.  A call starting at time `t` sleeps until `t + 1`,
issues the fetch at `t + 1`, and finishes (or recurses for the retry of
line 66) at `t + 1 + dur idx`.  Returns the times at which fetches were
issued, and the finishing time. -/
def rate_limited_request_timed (transport : ℕ → FetchResult) (dur : ℕ → ℚ)
    (idx : ℕ) (params : Params) (t : ℚ) : List ℚ × ℚ :=
  let fetchAt := t + 1
  let done := fetchAt + dur idx
  match transport idx with
  | .error _ => ([fetchAt], done)
  | .ok (_status, jsonData) =>
    match jsonData with
    | .obj fields =>
      if isApiError fields then
        match dictGet? params "q" with
        | some qv =>
          if h : 1 < params.length then
            let inner :=
              rate_limited_request_timed transport dur (idx + 1) [("q", qv)] done
            (fetchAt :: inner.1, inner.2)
          else ([fetchAt], done)
        | none => ([fetchAt], done)
      else ([fetchAt], done)
    | _ => ([fetchAt], done)
termination_by params.length
decreasing_by simpa using h

/-- A sequence of `rate_limited_request` calls issued one after another by
the single-threaded views, threading the clock and the fetch index (each
fetch consumes one index, so the index advances by the number of fetch
times produced). -/
def runCalls (transport : ℕ → FetchResult) (dur : ℕ → ℚ) :
    ℕ → List Params → ℚ → List ℚ
  | _, [], _ => []
  | idx, p :: ps, t =>
    let r := rate_limited_request_timed transport dur idx p t
    r.1 ++ runCalls transport dur (idx + r.1.length) ps r.2

/-- Whether a JSON value is an object (a Python dict). -/
def Json.isObj : Json → Bool
  | .obj _ => true
  | _ => false

/-- An API-level error body with no `data` key, as in the spec scenario
`{"error": "rate limited"}`. -/
def sampleErrorFields : List (String × Json) :=
  [("error", Json.str "rate limited")]

/-- A successful body with a one-record `data` array. -/
def sampleDataFields : List (String × Json) :=
  [("data", Json.arr [Json.obj [("title", Json.str "Naruto")]])]

/-- The spec's retry-scenario parameters `{q: "foo", sfw: true}`. -/
def sampleParams : Params :=
  [("q", Json.str "foo"), ("sfw", Json.str "true")]

/-- A transport whose first response is the API error and whose later
responses succeed. -/
def sampleTransport : ℕ → FetchResult := fun n =>
  if n = 0 then .ok (200, .obj sampleErrorFields)
  else .ok (200, .obj sampleDataFields)

/-- A transport that always returns the API error body. -/
def alwaysErrorTransport : ℕ → FetchResult := fun _ =>
  .ok (200, .obj sampleErrorFields)

/-- A transport that always fails at the transport level. -/
def failTransport : ℕ → FetchResult := fun _ =>
  .error "Connection refused"

/-- A raw record whose `score` key is present but bound to JSON null. -/
def nullScoreRecord : List (String × Json) :=
  [("title", Json.str "X"), ("score", Json.null)]

/-- The row `nullScoreRecord` shapes to in the Search Anime view. -/
def nullScoreRow : SearchRow :=
  { title := Json.str "X"
    image := Json.str ""
    description := Json.str "No description available"
    score := Json.null
    type := Json.str "Unknown"
    episodes := Json.int 0
    members := Json.int 0 }

/-- A Search Anime row with the given score and fixed remaining fields. -/
def rowWithScore (v : Json) : SearchRow :=
  { title := .str "t"
    image := .str ""
    description := .str "No description available"
    score := v
    type := .str "TV"
    episodes := .int 12
    members := .int 1000 }

/-! ### Helper lemmas about `rate_limited_request` -/

theorem rlr_transport_error {transport : ℕ → FetchResult} {idx : ℕ} {c : String}
    (h : transport idx = .error c) (params : Params) :
    rate_limited_request transport idx params =
      (.transportError ("Failed to fetch data: " ++ c), [params]) := by
  rw [rate_limited_request.eq_def, h]

theorem rlr_not_obj {transport : ℕ → FetchResult} {idx : ℕ} {s : ℕ} {j : Json}
    (h : transport idx = .ok (s, j)) (hj : j.isObj = false) (params : Params) :
    rate_limited_request transport idx params = (.attrError, [params]) := by
  rw [rate_limited_request.eq_def, h]
  cases j <;> simp_all [Json.isObj]

theorem rlr_no_api_error {transport : ℕ → FetchResult} {idx : ℕ} {s : ℕ}
    {fields : List (String × Json)}
    (h : transport idx = .ok (s, .obj fields)) (he : isApiError fields = false)
    (params : Params) :
    rate_limited_request transport idx params = (.body (.obj fields), [params]) := by
  rw [rate_limited_request.eq_def, h]
  simp [he]

theorem rlr_single {transport : ℕ → FetchResult} {idx : ℕ} (p : String × Json) :
    (rate_limited_request transport idx [p]).2 = [[p]] ∧
      (∀ s fields, transport idx = .ok (s, .obj fields) →
        rate_limited_request transport idx [p] = (.body (.obj fields), [[p]])) := by
  constructor
  · rw [rate_limited_request.eq_def]
    rcases h : transport idx with c | ⟨s, j⟩
    · rfl
    · cases j <;> try rfl
      simp only []
      split
      · cases dictGet? [p] "q" <;> rfl
      · rfl
  · intro s fields h
    rw [rate_limited_request.eq_def, h]
    simp only []
    split
    · split
      · simp
      · rfl
    · rfl

theorem rlr_retry {transport : ℕ → FetchResult} {idx : ℕ} {s : ℕ}
    {fields : List (String × Json)} {params : Params} {qv : Json}
    (h : transport idx = .ok (s, .obj fields)) (he : isApiError fields = true)
    (hq : dictGet? params "q" = some qv) (hl : 1 < params.length) :
    rate_limited_request transport idx params =
      ((rate_limited_request transport (idx + 1) [("q", qv)]).1,
        params :: (rate_limited_request transport (idx + 1) [("q", qv)]).2) := by
  rw [rate_limited_request.eq_def, h]
  simp [he, hq, hl]

theorem rlr_api_error_no_retry {transport : ℕ → FetchResult} {idx : ℕ} {s : ℕ}
    {fields : List (String × Json)} {params : Params}
    (h : transport idx = .ok (s, .obj fields)) (he : isApiError fields = true)
    (hnr : dictGet? params "q" = none ∨ ¬ 1 < params.length) :
    rate_limited_request transport idx params = (.body (.obj fields), [params]) := by
  rw [rate_limited_request.eq_def, h]
  rcases hnr with hq | hl
  · simp [he, hq]
  · cases hq2 : dictGet? params "q" with
    | none => simp [he, hq2]
    | some qv => simp [he, hq2, hl]

/-! ### Claim theorems -/

/-- C1: when the fetched body is an API error (an `error` key with absent or
falsy `data`), a call whose parameters contain `q` plus at least one other
key performs exactly one retry, whose parameters are exactly
`{'q': original query}` (the fetch trace is `[params, [("q", qv)]]`); a call
whose parameters are only `{'q': qv}` performs zero retries and returns the
error body itself. -/
theorem retry_narrows_to_query_only :
    (∀ (transport : ℕ → FetchResult) (idx s : ℕ) (fields : List (String × Json))
        (params : Params) (qv : Json),
      transport idx = .ok (s, .obj fields) → isApiError fields = true →
      dictGet? params "q" = some qv → 1 < params.length →
      (rate_limited_request transport idx params).2 = [params, [("q", qv)]]) ∧
    (∀ (transport : ℕ → FetchResult) (idx s : ℕ) (fields : List (String × Json))
        (qv : Json),
      transport idx = .ok (s, .obj fields) → isApiError fields = true →
      rate_limited_request transport idx [("q", qv)] =
        (.body (.obj fields), [[("q", qv)]])) := by
  constructor
  · intro transport idx s fields params qv h he hq hl
    rw [rlr_retry h he hq hl]
    simp [(rlr_single ("q", qv)).1]
  · intro transport idx s fields qv h _he
    exact (rlr_single ("q", qv)).2 s fields h

/-- C1 witness: with the spec's parameters `{q: "foo", sfw: "true"}` and a
first response `{"error": "rate limited"}`, the fetch trace is exactly the
original call followed by one retry with `{q: "foo"}`; with parameters
`{q: "foo"}` alone and every response the error body, the trace is a single
fetch and the error body is returned. -/
theorem retry_narrows_to_query_only_witness :
    (rate_limited_request sampleTransport 0 sampleParams).2 =
      [sampleParams, [("q", Json.str "foo")]] ∧
    rate_limited_request alwaysErrorTransport 0 [("q", Json.str "foo")] =
      (.body (.obj sampleErrorFields), [[("q", Json.str "foo")]]) :=
  ⟨retry_narrows_to_query_only.1 sampleTransport 0 200 sampleErrorFields
      sampleParams (Json.str "foo") rfl rfl rfl (by simp [sampleParams]),
    retry_narrows_to_query_only.2 alwaysErrorTransport 0 200 sampleErrorFields
      (Json.str "foo") rfl rfl⟩

/-- C2: for every transport behaviour and every parameter dictionary, one
call of `rate_limited_request` attempts at most two fetches (at most one
retry); the narrowing recursion is bounded and terminates (the function
is total by well-founded recursion on the number of parameters). -/
theorem at_most_one_retry :
    ∀ (transport : ℕ → FetchResult) (idx : ℕ) (params : Params),
      (rate_limited_request transport idx params).2.length ≤ 2 := by
  intro transport idx params
  rcases h : transport idx with c | ⟨s, j⟩
  · rw [rlr_transport_error h params]
    simp
  · cases j with
    | obj fields =>
      by_cases he : isApiError fields
      · cases hq : dictGet? params "q" with
        | none =>
          rw [rlr_api_error_no_retry h he (Or.inl hq)]
          simp
        | some qv =>
          by_cases hl : 1 < params.length
          · rw [rlr_retry h he hq hl]
            simp [(rlr_single ("q", qv)).1]
          · rw [rlr_api_error_no_retry h he (Or.inr hl)]
            simp
      · rw [rlr_no_api_error h (by simpa using he) params]
        simp
    | null => rw [rlr_not_obj h rfl params]; simp
    | bool b => rw [rlr_not_obj h rfl params]; simp
    | int n => rw [rlr_not_obj h rfl params]; simp
    | float q => rw [rlr_not_obj h rfl params]; simp
    | str s2 => rw [rlr_not_obj h rfl params]; simp
    | arr elems => rw [rlr_not_obj h rfl params]; simp

theorem except_bind_ok {ε α β : Type} (a : α) (f : α → Except ε β) :
    (Except.ok a >>= f) = f a := rfl

theorem except_bind_error {ε α β : Type} (e : ε) (f : α → Except ε β) :
    ((Except.error e : Except ε α) >>= f) = Except.error e := rfl

theorem pyGetAttr_error_attr {v : Json} {k : String} {d : Json} {e : ShapeErr}
    (h : pyGetAttr v k d = Except.error e) : e = ShapeErr.attributeError := by
  cases v <;> simp_all [pyGetAttr]

theorem imageUrlChain_error_attr {record : List (String × Json)} {key : String}
    {e : ShapeErr} (h : imageUrlChain record key = Except.error e) :
    e = ShapeErr.attributeError := by
  cases hj : pyGetAttr (dictGetD record "images" (Json.obj [])) "jpg" (Json.obj []) with
  | error e2 =>
    have h2 : imageUrlChain record key = Except.error e2 := by
      simp [imageUrlChain, hj, except_bind_error]
    have he2 := pyGetAttr_error_attr hj
    rw [h2] at h
    injection h with h3
    rw [← h3]
    exact he2
  | ok jpg =>
    have h2 : imageUrlChain record key = pyGetAttr jpg key (Json.str "") := by
      simp [imageUrlChain, hj, except_bind_ok]
    rw [h2] at h
    exact pyGetAttr_error_attr h

theorem imageUrlChain_images_absent {record : List (String × Json)}
    (h : dictGet? record "images" = none) (key : String) :
    imageUrlChain record key = Except.ok (Json.str "") := by
  have h1 : dictGetD record "images" (Json.obj []) = Json.obj [] := by
    simp [dictGetD, h]
  have h2 : pyGetAttr (dictGetD record "images" (Json.obj [])) "jpg" (Json.obj []) =
      Except.ok (Json.obj []) := by
    rw [h1]
    simp [pyGetAttr, dictGetD, dictGet?]
  have h3 : pyGetAttr (Json.obj []) key (Json.str "") = Except.ok (Json.str "") := by
    simp [pyGetAttr, dictGetD, dictGet?]
  simp [imageUrlChain, h2, h3, except_bind_ok]

theorem shapeSearch_ok {record : List (String × Json)} {t u : Json}
    (ht : dictGet? record "title" = some t)
    (hc : imageUrlChain record "image_url" = Except.ok u) :
    shapeSearch record = Except.ok
      { title := t
        image := u
        description := dictGetD record "synopsis" (.str "No description available")
        score := dictGetD record "score" (.int 0)
        type := dictGetD record "type" (.str "Unknown")
        episodes := dictGetD record "episodes" (.int 0)
        members := dictGetD record "members" (.int 0) } := by
  simp [shapeSearch, ht, hc, except_bind_ok, except_bind_error]

theorem shapeTop_ok {record : List (String × Json)} {t u : Json}
    (ht : dictGet? record "title" = some t)
    (hc : imageUrlChain record "image_url" = Except.ok u) :
    shapeTop record = Except.ok
      { title := t
        score := dictGetD record "score" (.int 0)
        members := dictGetD record "members" (.int 0)
        rank := dictGetD record "rank" (.int 0)
        type := dictGetD record "type" (.str "Unknown")
        episodes := dictGetD record "episodes" (.str "N/A")
        status := dictGetD record "status" (.str "Unknown")
        year := dictGetD record "year" (.str "Unknown")
        image_url := u } := by
  simp [shapeTop, ht, hc, except_bind_ok, except_bind_error]

theorem shapeSearch_title_absent {record : List (String × Json)}
    (ht : dictGet? record "title" = none) :
    shapeSearch record = Except.error ShapeErr.keyError := by
  simp [shapeSearch, ht, except_bind_error]

theorem shapeTop_title_absent {record : List (String × Json)}
    (ht : dictGet? record "title" = none) :
    shapeTop record = Except.error ShapeErr.keyError := by
  simp [shapeTop, ht, except_bind_error]

theorem shapeSearch_inv {record : List (String × Json)} {r : SearchRow}
    (h : shapeSearch record = Except.ok r) :
    ∃ t u, dictGet? record "title" = some t ∧
      imageUrlChain record "image_url" = Except.ok u ∧
      r = { title := t
            image := u
            description := dictGetD record "synopsis" (.str "No description available")
            score := dictGetD record "score" (.int 0)
            type := dictGetD record "type" (.str "Unknown")
            episodes := dictGetD record "episodes" (.int 0)
            members := dictGetD record "members" (.int 0) } := by
  cases ht : dictGet? record "title" with
  | none => rw [shapeSearch_title_absent ht] at h; exact absurd h (by simp)
  | some t =>
    cases hc : imageUrlChain record "image_url" with
    | error e => simp [shapeSearch, ht, hc, except_bind_ok, except_bind_error] at h
    | ok u =>
      refine ⟨t, u, rfl, rfl, ?_⟩
      rw [shapeSearch_ok ht hc] at h
      exact (Except.ok.inj h).symm

theorem shapeTop_inv {record : List (String × Json)} {r : TopRow}
    (h : shapeTop record = Except.ok r) :
    ∃ t u, dictGet? record "title" = some t ∧
      imageUrlChain record "image_url" = Except.ok u ∧
      r = { title := t
            score := dictGetD record "score" (.int 0)
            members := dictGetD record "members" (.int 0)
            rank := dictGetD record "rank" (.int 0)
            type := dictGetD record "type" (.str "Unknown")
            episodes := dictGetD record "episodes" (.str "N/A")
            status := dictGetD record "status" (.str "Unknown")
            year := dictGetD record "year" (.str "Unknown")
            image_url := u } := by
  cases ht : dictGet? record "title" with
  | none => rw [shapeTop_title_absent ht] at h; exact absurd h (by simp)
  | some t =>
    cases hc : imageUrlChain record "image_url" with
    | error e => simp [shapeTop, ht, hc, except_bind_ok, except_bind_error] at h
    | ok u =>
      refine ⟨t, u, rfl, rfl, ?_⟩
      rw [shapeTop_ok ht hc] at h
      exact (Except.ok.inj h).symm

theorem shapeSearch_keyError_only_title {record : List (String × Json)}
    (h : shapeSearch record = Except.error ShapeErr.keyError) :
    dictGet? record "title" = none := by
  cases ht : dictGet? record "title" with
  | none => rfl
  | some t =>
    cases hc : imageUrlChain record "image_url" with
    | ok u => rw [shapeSearch_ok ht hc] at h; exact absurd h (by simp)
    | error e =>
      have he := imageUrlChain_error_attr hc
      subst he
      simp [shapeSearch, ht, hc, except_bind_ok, except_bind_error] at h

theorem shapeTop_keyError_only_title {record : List (String × Json)}
    (h : shapeTop record = Except.error ShapeErr.keyError) :
    dictGet? record "title" = none := by
  cases ht : dictGet? record "title" with
  | none => rfl
  | some t =>
    cases hc : imageUrlChain record "image_url" with
    | ok u => rw [shapeTop_ok ht hc] at h; exact absurd h (by simp)
    | error e =>
      have he := imageUrlChain_error_attr hc
      subst he
      simp [shapeTop, ht, hc, except_bind_ok, except_bind_error] at h

/-- C3 counterexample: shaping the record `{"title": "X"}` (all optional
fields absent) gives, for the Top Anime view, `episodes = "N/A"` — a
string, not the numeric 0 the claim states — and, for the Search Anime
view, `description = "No description available"`, which is neither
`"Unknown"` nor the empty string. -/
theorem shaping_defaults_counterexample :
    shapeTop [("title", Json.str "X")] = Except.ok
      { title := Json.str "X"
        score := Json.int 0
        members := Json.int 0
        rank := Json.int 0
        type := Json.str "Unknown"
        episodes := Json.str "N/A"
        status := Json.str "Unknown"
        year := Json.str "Unknown"
        image_url := Json.str "" } ∧
    Json.str "N/A" ≠ Json.int 0 ∧
    shapeSearch [("title", Json.str "X")] = Except.ok
      { title := Json.str "X"
        image := Json.str ""
        description := Json.str "No description available"
        score := Json.int 0
        type := Json.str "Unknown"
        episodes := Json.int 0
        members := Json.int 0 } ∧
    Json.str "No description available" ≠ Json.str "Unknown" ∧
    Json.str "No description available" ≠ Json.str "" :=
  ⟨rfl, fun h => Json.noConfusion h, rfl,
    fun h => by injection h with h2; exact absurd h2 (by decide),
    fun h => by injection h with h2; exact absurd h2 (by decide)⟩

/-- C3 (amended): for every record containing the mandatory title (and
whose nested image path, when present, consists of objects, so that the
`.get` chain is defined), shaping succeeds; fields absent from the record
take their explicit defaults — `score`, `members`, `rank` default to the
integer 0, `type` and `status` to `"Unknown"`, the nested image URL to the
empty string — except that the Search view's description defaults to
`"No description available"` and the Top view's `episodes` and `year`
default to the strings `"N/A"` and `"Unknown"`.  Shaping fails with
`KeyError` (the `MalformedRecordError`) exactly when the title is absent. -/
theorem shaping_defaults_amended :
    (∀ (record : List (String × Json)) (t u : Json),
      dictGet? record "title" = some t →
      imageUrlChain record "image_url" = Except.ok u →
      ∃ r, shapeSearch record = Except.ok r ∧ r.title = t ∧
        (dictGet? record "synopsis" = none →
          r.description = Json.str "No description available") ∧
        (dictGet? record "score" = none → r.score = Json.int 0) ∧
        (dictGet? record "type" = none → r.type = Json.str "Unknown") ∧
        (dictGet? record "episodes" = none → r.episodes = Json.int 0) ∧
        (dictGet? record "members" = none → r.members = Json.int 0) ∧
        (dictGet? record "images" = none → r.image = Json.str "")) ∧
    (∀ (record : List (String × Json)) (t u : Json),
      dictGet? record "title" = some t →
      imageUrlChain record "image_url" = Except.ok u →
      ∃ r, shapeTop record = Except.ok r ∧ r.title = t ∧
        (dictGet? record "score" = none → r.score = Json.int 0) ∧
        (dictGet? record "members" = none → r.members = Json.int 0) ∧
        (dictGet? record "rank" = none → r.rank = Json.int 0) ∧
        (dictGet? record "type" = none → r.type = Json.str "Unknown") ∧
        (dictGet? record "episodes" = none → r.episodes = Json.str "N/A") ∧
        (dictGet? record "status" = none → r.status = Json.str "Unknown") ∧
        (dictGet? record "year" = none → r.year = Json.str "Unknown") ∧
        (dictGet? record "images" = none → r.image_url = Json.str "")) ∧
    (∀ record : List (String × Json), dictGet? record "images" = none →
      imageUrlChain record "image_url" = Except.ok (Json.str "")) ∧
    (∀ record : List (String × Json), dictGet? record "title" = none →
      shapeSearch record = Except.error ShapeErr.keyError ∧
      shapeTop record = Except.error ShapeErr.keyError) ∧
    (∀ record : List (String × Json),
      (shapeSearch record = Except.error ShapeErr.keyError →
        dictGet? record "title" = none) ∧
      (shapeTop record = Except.error ShapeErr.keyError →
        dictGet? record "title" = none)) := by
  refine ⟨?_, ?_, ?_, ?_, ?_⟩
  · intro record t u ht hc
    refine ⟨_, shapeSearch_ok ht hc, rfl, ?_, ?_, ?_, ?_, ?_, ?_⟩
    · intro hx; simp [dictGetD, hx]
    · intro hx; simp [dictGetD, hx]
    · intro hx; simp [dictGetD, hx]
    · intro hx; simp [dictGetD, hx]
    · intro hx; simp [dictGetD, hx]
    · intro hx
      have h2 := imageUrlChain_images_absent hx "image_url"
      exact Except.ok.inj (hc.symm.trans h2)
  · intro record t u ht hc
    refine ⟨_, shapeTop_ok ht hc, rfl, ?_, ?_, ?_, ?_, ?_, ?_, ?_, ?_⟩
    · intro hx; simp [dictGetD, hx]
    · intro hx; simp [dictGetD, hx]
    · intro hx; simp [dictGetD, hx]
    · intro hx; simp [dictGetD, hx]
    · intro hx; simp [dictGetD, hx]
    · intro hx; simp [dictGetD, hx]
    · intro hx; simp [dictGetD, hx]
    · intro hx
      have h2 := imageUrlChain_images_absent hx "image_url"
      exact Except.ok.inj (hc.symm.trans h2)
  · intro record hx
    exact imageUrlChain_images_absent hx "image_url"
  · intro record ht
    exact ⟨shapeSearch_title_absent ht, shapeTop_title_absent ht⟩
  · intro record
    exact ⟨shapeSearch_keyError_only_title, shapeTop_keyError_only_title⟩

/-- C3 witness: a record missing its images has a defined image chain, a
record lacking its title fails to shape in both views with `KeyError`, the
empty record's `KeyError` implies its title is absent, and shaping the
title-only record succeeds in both views. -/
theorem shaping_defaults_amended_witness :
    imageUrlChain [("score", Json.null)] "image_url" = Except.ok (Json.str "") ∧
    shapeSearch [("score", Json.null)] = Except.error ShapeErr.keyError ∧
    shapeTop [("score", Json.null)] = Except.error ShapeErr.keyError ∧
    dictGet? ([] : List (String × Json)) "title" = none ∧
    (shapeSearch [("title", Json.str "X")]).isOk = true ∧
    (shapeTop [("title", Json.str "X")]).isOk = true :=
  ⟨shaping_defaults_amended.2.2.1 [("score", Json.null)] rfl,
    (shaping_defaults_amended.2.2.2.1 [("score", Json.null)] rfl).1,
    (shaping_defaults_amended.2.2.2.1 [("score", Json.null)] rfl).2,
    (shaping_defaults_amended.2.2.2.2 []).1 rfl,
    by
      obtain ⟨r, hr, -⟩ := shaping_defaults_amended.1 [("title", Json.str "X")]
        (Json.str "X") (Json.str "") rfl rfl
      simp [hr, Except.isOk, Except.toBool],
    by
      obtain ⟨r, hr, -⟩ := shaping_defaults_amended.2.1 [("title", Json.str "X")]
        (Json.str "X") (Json.str "") rfl rfl
      simp [hr, Except.isOk, Except.toBool]⟩

/-- C9: when an optional field (`score`, `type`, `episodes`, `members`,
`synopsis`/`rank`) is present but bound to JSON null — or any other value —
shaping passes the bound value through unchanged; the defaults apply only
to absent keys, so a record with an explicit null score shapes to a row
whose score is null: neither 0 nor a number. -/
theorem explicit_null_preserved :
    (∀ (record : List (String × Json)) (r : SearchRow),
      shapeSearch record = Except.ok r →
      (∀ v, dictGet? record "score" = some v → r.score = v) ∧
      (∀ v, dictGet? record "type" = some v → r.type = v) ∧
      (∀ v, dictGet? record "episodes" = some v → r.episodes = v) ∧
      (∀ v, dictGet? record "members" = some v → r.members = v) ∧
      (∀ v, dictGet? record "synopsis" = some v → r.description = v)) ∧
    (∀ (record : List (String × Json)) (r : TopRow),
      shapeTop record = Except.ok r →
      (∀ v, dictGet? record "score" = some v → r.score = v) ∧
      (∀ v, dictGet? record "type" = some v → r.type = v) ∧
      (∀ v, dictGet? record "episodes" = some v → r.episodes = v) ∧
      (∀ v, dictGet? record "members" = some v → r.members = v) ∧
      (∀ v, dictGet? record "rank" = some v → r.rank = v)) := by
  constructor
  · intro record r h
    obtain ⟨t, u, ht, hc, hr⟩ := shapeSearch_inv h
    subst hr
    refine ⟨?_, ?_, ?_, ?_, ?_⟩ <;> intro v hv <;> simp [dictGetD, hv]
  · intro record r h
    obtain ⟨t, u, ht, hc, hr⟩ := shapeTop_inv h
    subst hr
    refine ⟨?_, ?_, ?_, ?_, ?_⟩ <;> intro v hv <;> simp [dictGetD, hv]

/-- C9 witness: the record `{"title": "X", "score": null}` shapes to a row
whose score is the preserved null, which is not a number. -/
theorem explicit_null_preserved_witness :
    nullScoreRow.score = Json.null ∧ toRat? nullScoreRow.score = none :=
  ⟨(explicit_null_preserved.1 nullScoreRecord nullScoreRow rfl).1 Json.null rfl,
    rfl⟩

/-- C4: in both views, the score filter returns a subsequence of its input
(the relative order is preserved and the input list itself, being a pure
value, is not mutated); every retained row has a numeric score at least
`minScore` (inclusive boundary); and every input row passing the predicate
is retained (only rows below the threshold are removed). -/
theorem score_filter_subsequence :
    (∀ (rows : List SearchRow) (m : ℚ),
      (filterByScore rows m).Sublist rows ∧
      (∀ r, r ∈ filterByScore rows m → ∃ q, toRat? r.score = some q ∧ m ≤ q) ∧
      (∀ r, r ∈ rows → scoreKeeps r.score m = true → r ∈ filterByScore rows m)) ∧
    (∀ (rows : List TopRow) (m : ℚ),
      (filterByScoreTop rows m).Sublist rows ∧
      (∀ r, r ∈ filterByScoreTop rows m → ∃ q, toRat? r.score = some q ∧ m ≤ q) ∧
      (∀ r, r ∈ rows → scoreKeeps r.score m = true →
        r ∈ filterByScoreTop rows m)) := by
  constructor
  · intro rows m
    refine ⟨List.filter_sublist rows, ?_, ?_⟩
    · intro r hr
      have hk := (List.mem_filter.mp hr).2
      unfold scoreKeeps at hk
      cases hq : toRat? r.score with
      | none => rw [hq] at hk; exact absurd hk (by simp)
      | some q =>
        rw [hq] at hk
        exact ⟨q, rfl, of_decide_eq_true hk⟩
    · intro r hr hk
      exact List.mem_filter.mpr ⟨hr, hk⟩
  · intro rows m
    refine ⟨List.filter_sublist rows, ?_, ?_⟩
    · intro r hr
      have hk := (List.mem_filter.mp hr).2
      unfold scoreKeeps at hk
      cases hq : toRat? r.score with
      | none => rw [hq] at hk; exact absurd hk (by simp)
      | some q =>
        rw [hq] at hk
        exact ⟨q, rfl, of_decide_eq_true hk⟩
    · intro r hr hk
      exact List.mem_filter.mpr ⟨hr, hk⟩

/-- C4 witness: with a single row of score 6.0 and threshold 5.0, the
filter output is a sublist of the input and the row, which passes the
predicate, is retained. -/
theorem score_filter_subsequence_witness :
    (filterByScore [rowWithScore (Json.float 6)] 5).Sublist
        [rowWithScore (Json.float 6)] ∧
      rowWithScore (Json.float 6) ∈ filterByScore [rowWithScore (Json.float 6)] 5 :=
  ⟨(score_filter_subsequence.1 [rowWithScore (Json.float 6)] 5).1,
    (score_filter_subsequence.1 [rowWithScore (Json.float 6)] 5).2.2
      (rowWithScore (Json.float 6)) (by simp) rfl⟩

theorem length_filterMap_all_some {α β : Type} (f : α → Option β) :
    ∀ l : List α, (∀ x ∈ l, (f x).isSome) → (l.filterMap f).length = l.length := by
  intro l h
  induction l with
  | nil => rfl
  | cons a l2 ih =>
    have ha := h a (by simp)
    cases hf : f a with
    | none => rw [hf] at ha; exact absurd ha (by simp)
    | some b =>
      simp only [List.filterMap_cons, hf, List.length_cons]
      rw [ih (fun x hx => h x (by simp [hx]))]

/-- C7: the Search view's insights are guarded — an empty filtered result
set yields no summary (`None`) — and on a non-empty filtered result set
every row's score is numeric, so `df['score'].mean()` is exactly the
arithmetic mean: the sum of the rows' scores divided by the number of
rows.  Concretely, rows with scores 6.0, 8.0, 10.0 have mean score 8. -/
theorem mean_score_insights :
    (∀ (rows : List SearchRow) (m : ℚ),
      filterByScore rows m = [] → searchInsights rows m = none) ∧
    (∀ (rows : List SearchRow) (m : ℚ),
      filterByScore rows m ≠ [] →
      (numericScores (filterByScore rows m)).length =
          (filterByScore rows m).length ∧
        searchInsights rows m =
          some ((numericScores (filterByScore rows m)).sum /
            ((filterByScore rows m).length : ℚ))) ∧
    meanScore [rowWithScore (Json.float 6), rowWithScore (Json.float 8),
      rowWithScore (Json.float 10)] = 8 := by
  have hconc : numericScores [rowWithScore (Json.float 6),
      rowWithScore (Json.float 8), rowWithScore (Json.float 10)] =
      [6, 8, 10] := rfl
  refine ⟨?_, ?_, by unfold meanScore; rw [hconc]; norm_num⟩
  · intro rows m h
    simp [searchInsights, h]
  · intro rows m hne
    have hall : ∀ r ∈ filterByScore rows m, (toRat? r.score).isSome := by
      intro r hr
      have hk := (List.mem_filter.mp hr).2
      unfold scoreKeeps at hk
      cases hq : toRat? r.score with
      | none => rw [hq] at hk; exact absurd hk (by simp)
      | some q => simp
    have hlen : (numericScores (filterByScore rows m)).length =
        (filterByScore rows m).length := by
      unfold numericScores
      exact length_filterMap_all_some (fun (r : SearchRow) => toRat? r.score)
        (filterByScore rows m) hall
    refine ⟨hlen, ?_⟩
    have hfe : (filterByScore rows m).isEmpty = false := by
      cases hfl : filterByScore rows m with
      | nil => exact absurd hfl hne
      | cons a l => rfl
    simp [searchInsights, hfe, meanScore, hlen]

/-- C7 witness: a single row of score 6.0 survives the 5.0 threshold, all
its scores are numeric, and the produced insight is the mean 6. -/
theorem mean_score_insights_witness :
    searchInsights [rowWithScore (Json.float 6)] 5 = some 6 := by
  have hrfl : filterByScore [rowWithScore (Json.float 6)] 5 =
      [rowWithScore (Json.float 6)] := rfl
  have hne : filterByScore [rowWithScore (Json.float 6)] 5 ≠ [] :=
    fun h => List.noConfusion (hrfl.symm.trans h)
  have h := (mean_score_insights.2.1 [rowWithScore (Json.float 6)] 5 hne).2
  rw [hrfl] at h
  rw [h]
  rw [show numericScores [rowWithScore (Json.float 6)] = [6] from rfl]
  norm_num

/-- C8 counterexample: a record whose `episodes` is the JSON boolean
`true` does not carry an integer episode count, yet the estimate is
computed, not omitted — Python `bool` subclasses `int`, so
`isinstance(True, int)` holds and app.py line 747 computes
`True * 23 = 23` minutes — refuting "if either side's episode count is
not an integer, the estimate is omitted entirely". -/
theorem time_investment_bool_counterexample :
    timeInvestment [("episodes", Json.bool true)] [("episodes", Json.int 24)] =
        some (23, 552) ∧
      timeInvestment [("episodes", Json.bool true)] [("episodes", Json.int 24)] ≠
        none :=
  ⟨rfl, fun h => Option.noConfusion (h.symm.trans rfl)⟩

/-- C8 (amended): the comparison view's time-investment estimate is
`episodes × 23` minutes per side, computed exactly when both sides'
episodes values satisfy Python's `isinstance(…, int)` — JSON integers or,
because `bool` subclasses `int`, JSON booleans (`true` counting as 1 and
`false` as 0) — and omitted entirely when either side's episodes value is
absent, null, a float, a string, an array or an object. -/
theorem time_investment_episodes_amended :
    (∀ (a1 a2 : List (String × Json)) (v1 v2 : Json),
      dictGet? a1 "episodes" = some v1 →
      dictGet? a2 "episodes" = some v2 →
      isPyInt v1 = true → isPyInt v2 = true →
      timeInvestment a1 a2 = some (pyIntVal v1 * 23, pyIntVal v2 * 23)) ∧
    (∀ a1 a2 : List (String × Json),
      isPyInt ((dictGet? a1 "episodes").getD Json.null) = false →
      timeInvestment a1 a2 = none) ∧
    (∀ a1 a2 : List (String × Json),
      isPyInt ((dictGet? a2 "episodes").getD Json.null) = false →
      timeInvestment a1 a2 = none) := by
  refine ⟨?_, ?_, ?_⟩
  · intro a1 a2 v1 v2 h1 h2 hi1 hi2
    simp [timeInvestment, h1, h2, hi1, hi2]
  · intro a1 a2 h
    simp [timeInvestment, h]
  · intro a1 a2 h
    simp [timeInvestment, h]

/-- C8 witness: integer episode counts 12 and 24 give the estimate
(276, 552) minutes; a boolean `true` on one side passes the isinstance
guard and gives (23, 552); a null episode count omits the estimate. -/
theorem time_investment_episodes_amended_witness :
    timeInvestment [("episodes", Json.int 12)] [("episodes", Json.int 24)] =
        some (276, 552) ∧
      timeInvestment [("episodes", Json.bool true)] [("episodes", Json.int 24)] =
        some (23, 552) ∧
      timeInvestment [("episodes", Json.null)] [("episodes", Json.int 24)] =
        none :=
  ⟨time_investment_episodes_amended.1 [("episodes", Json.int 12)]
      [("episodes", Json.int 24)] (Json.int 12) (Json.int 24) rfl rfl rfl rfl,
    time_investment_episodes_amended.1 [("episodes", Json.bool true)]
      [("episodes", Json.int 24)] (Json.bool true) (Json.int 24) rfl rfl rfl rfl,
    time_investment_episodes_amended.2.1 [("episodes", Json.null)]
      [("episodes", Json.int 24)] rfl⟩

/-- C10: the suggestion lookup returns the empty list for an empty search
term (checked before the `try` block), and returns the empty list instead
of propagating when the underlying request fails in any way — the wrapped
transport `Exception` or the uncaught `AttributeError` — because the whole
body sits in a `try/except Exception` that returns `[]`; being a total
function into `List Suggestion`, it never raises to its caller. -/
theorem suggestions_swallow_errors :
    (∀ (transport : ℕ → FetchResult) (idx : ℕ),
      get_anime_suggestions transport idx "" = []) ∧
    (∀ (transport : ℕ → FetchResult) (idx : ℕ) (term msg : String),
      (rate_limited_request transport idx (suggestParams term)).1 =
          ReqOutcome.transportError msg →
      get_anime_suggestions transport idx term = []) ∧
    (∀ (transport : ℕ → FetchResult) (idx : ℕ) (term : String),
      (rate_limited_request transport idx (suggestParams term)).1 =
          ReqOutcome.attrError →
      get_anime_suggestions transport idx term = []) := by
  refine ⟨?_, ?_, ?_⟩
  · intro transport idx
    simp [get_anime_suggestions]
  · intro transport idx term msg h
    by_cases ht : term = ""
    · simp [get_anime_suggestions, ht]
    · simp [get_anime_suggestions, ht, h]
  · intro transport idx term h
    by_cases ht : term = ""
    · simp [get_anime_suggestions, ht]
    · simp [get_anime_suggestions, ht, h]

/-- C10 witness: the empty search term yields `[]`, and a connection
failure on the lookup of "naruto" yields `[]` instead of an exception. -/
theorem suggestions_swallow_errors_witness :
    get_anime_suggestions failTransport 0 "" = [] ∧
      get_anime_suggestions failTransport 0 "naruto" = [] :=
  ⟨suggestions_swallow_errors.1 failTransport 0,
    suggestions_swallow_errors.2.1 failTransport 0 "naruto"
      ("Failed to fetch data: " ++ "Connection refused")
      (by rw [rlr_transport_error rfl (suggestParams "naruto")])⟩

/-! ### Helper lemmas about the timed model -/

theorem rlr_timed_single (transport : ℕ → FetchResult) (dur : ℕ → ℚ) (idx : ℕ)
    (p : String × Json) (t : ℚ) :
    rate_limited_request_timed transport dur idx [p] t =
      ([t + 1], t + 1 + dur idx) := by
  rw [rate_limited_request_timed.eq_def]
  rcases h : transport idx with c | ⟨s, j⟩
  · rfl
  · cases j <;> try rfl
    simp only []
    split
    · cases dictGet? [p] "q" <;> rfl
    · rfl

theorem rlr_timed_shape (transport : ℕ → FetchResult) (dur : ℕ → ℚ) (idx : ℕ)
    (params : Params) (t : ℚ) :
    rate_limited_request_timed transport dur idx params t =
        ([t + 1], t + 1 + dur idx) ∨
      rate_limited_request_timed transport dur idx params t =
        ([t + 1, t + 1 + dur idx + 1], t + 1 + dur idx + 1 + dur (idx + 1)) := by
  rw [rate_limited_request_timed.eq_def]
  rcases h : transport idx with c | ⟨s, j⟩
  · exact Or.inl rfl
  · cases j <;> try exact Or.inl rfl
    simp only []
    split
    · split
      · split
        · rw [rlr_timed_single]
          exact Or.inr rfl
        · exact Or.inl rfl
      · exact Or.inl rfl
    · exact Or.inl rfl

theorem rlr_timed_spec (transport : ℕ → FetchResult) (dur : ℕ → ℚ)
    (hdur : ∀ i, 0 ≤ dur i) (idx : ℕ) (params : Params) (t : ℚ) :
    List.Chain' (fun a b => a + 1 ≤ b)
        (rate_limited_request_timed transport dur idx params t).1 ∧
      (rate_limited_request_timed transport dur idx params t).1.head? =
        some (t + 1) ∧
      ∀ x ∈ (rate_limited_request_timed transport dur idx params t).1,
        x ≤ (rate_limited_request_timed transport dur idx params t).2 := by
  rcases rlr_timed_shape transport dur idx params t with h | h <;> rw [h]
  · refine ⟨by simp, rfl, ?_⟩
    intro x hx
    simp only [List.mem_singleton] at hx
    subst hx
    have h1 := hdur idx
    show t + 1 ≤ t + 1 + dur idx
    linarith
  · have h1 := hdur idx
    have h2 := hdur (idx + 1)
    refine ⟨List.chain'_cons.2 ⟨by linarith, List.chain'_singleton _⟩, rfl, ?_⟩
    intro x hx
    simp only [List.mem_cons, List.not_mem_nil, or_false] at hx
    rcases hx with hx | hx <;> subst hx
    · show t + 1 ≤ t + 1 + dur idx + 1 + dur (idx + 1)
      linarith
    · show t + 1 + dur idx + 1 ≤ t + 1 + dur idx + 1 + dur (idx + 1)
      linarith

theorem runCalls_head (transport : ℕ → FetchResult) (dur : ℕ → ℚ) (idx : ℕ)
    (p : Params) (ps : List Params) (t : ℚ) :
    (runCalls transport dur idx (p :: ps) t).head? = some (t + 1) := by
  rcases rlr_timed_shape transport dur idx p t with h | h <;>
    simp [runCalls, h]

theorem runCalls_chain (transport : ℕ → FetchResult) (dur : ℕ → ℚ)
    (hdur : ∀ i, 0 ≤ dur i) :
    ∀ (ps : List Params) (idx : ℕ) (t : ℚ),
      List.Chain' (fun a b => a + 1 ≤ b) (runCalls transport dur idx ps t) := by
  intro ps
  induction ps with
  | nil => intro idx t; simp [runCalls]
  | cons p ps ih =>
    intro idx t
    rw [runCalls]
    obtain ⟨hc, hh, hb⟩ := rlr_timed_spec transport dur hdur idx p t
    rw [List.chain'_append]
    refine ⟨hc, ih _ _, ?_⟩
    intro x hx y hy
    cases ps with
    | nil => simp [runCalls] at hy
    | cons p2 ps2 =>
      rw [runCalls_head] at hy
      have hy2 : (rate_limited_request_timed transport dur idx p t).2 + 1 = y := by
        simpa using hy
      have hxmem : x ∈ (rate_limited_request_timed transport dur idx p t).1 :=
        List.mem_of_mem_getLast? hx
      have hxle := hb x hxmem
      rw [← hy2]
      linarith

/-- C5: in the timed model — where `time.sleep(1)` advances the clock by
exactly one unit, the n-th fetch and its handling take an arbitrary
duration `dur n ≥ 0`, and the single-threaded views issue their calls
sequentially — every two consecutive permitted fetches are separated by at
least 1 time unit, and the throttle blocks a call starting at time `t`
exactly until `t + 1` before permitting its first fetch (a delay of
exactly one unit, hence bounded by 1). -/
theorem rate_limiter_min_spacing (transport : ℕ → FetchResult) (dur : ℕ → ℚ)
    (hdur : ∀ i, 0 ≤ dur i) :
    (∀ (ps : List Params) (idx : ℕ) (t : ℚ),
      List.Chain' (fun a b => a + 1 ≤ b) (runCalls transport dur idx ps t)) ∧
    (∀ (idx : ℕ) (params : Params) (t : ℚ),
      (rate_limited_request_timed transport dur idx params t).1.head? =
        some (t + 1)) :=
  ⟨runCalls_chain transport dur hdur,
    fun idx params t => (rlr_timed_spec transport dur hdur idx params t).2.1⟩

/-- C5 witness: two consecutive calls with the spec parameters, an
always-erroring API (so each call also retries) and zero processing time
produce fetch times spaced at least one unit apart, and the first fetch of
a call starting at time 0 is at time 1. -/
theorem rate_limiter_min_spacing_witness :
    List.Chain' (fun a b => a + 1 ≤ b)
        (runCalls alwaysErrorTransport (fun _ => 0) 0
          [sampleParams, sampleParams] 0) ∧
      (rate_limited_request_timed alwaysErrorTransport (fun _ => 0) 0
          sampleParams 0).1.head? = some (0 + 1) :=
  ⟨(rate_limiter_min_spacing alwaysErrorTransport (fun _ => 0)
      (fun _ => le_refl 0)).1 [sampleParams, sampleParams] 0 0,
    (rate_limiter_min_spacing alwaysErrorTransport (fun _ => 0)
      (fun _ => le_refl 0)).2 0 sampleParams 0⟩

end AnimeDash
